import Mathlib

/-!
# Verification of the WeActStudio.SystemMonitor scheduler core

A shallow embedding, in Lean 4, of the concurrency / fault-recovery core of
the system monitor:

* `src/main.py` — `Config`, `DisplayManager.check_health` (the link-health
  reconnection state machine) and `SchedulerManager.start_queue_handler`
  (the single-consumer output-queue worker);
* `src/library/metric_collector.py` — `MetricTaskConfig`,
  `MetricCollectorConfig` (pydantic validation), `MetricCollector`
  (register / start / stop / pause / resume over an APScheduler
  `BackgroundScheduler`) and `create_default_config_from_theme`.

Python floats are modelled as rationals (`ℚ`): every comparison performed by
the code (`v < 0.1`, `v > 86400`, `interval > 0`, `max(300.0, v)`) is an
order comparison that rationals reproduce exactly for the decimal literals
involved.  Python exceptions are modelled with `Except String`.  Mutable
attribute state is passed explicitly.
-/

namespace SystemMonitor

/-- `Config` dataclass from `src/main.py` (defaults as in the source). -/
structure Config where
  scheduler_stagger_delay : ℚ := 15 / 100
  health_check_interval : ℚ := 2
  reconnect_wait : ℚ := 3
  max_reconnect_attempts : Nat := 20

/-- The environment one call to `DisplayManager.check_health` observes:
whether the display is LCD-simulated (`display.is_LcdSimulated`), whether the
serial probe passes (`display.lcd.lcd_serial and display.lcd.lcd_serial.is_open`,
both truthiness and openness folded into one flag), and whether a call to
`lcd_serial.open()` would succeed or raise. -/
structure LinkProbe where
  is_LcdSimulated : Bool
  serial_is_open : Bool
  open_succeeds : Bool

/-- Result of one `check_health` call: either a normal return (`ret true` =
"reconnection needed and successful, restart", `ret false` = "continue"), or
an uncaught `RuntimeError` (`fatal`). -/
inductive HealthOutcome where
  | ret (restart : Bool)
  | fatal (msg : String)
deriving DecidableEq, Repr

/-- `DisplayManager._try_reconnect` from `src/main.py` (lines 98–120), acting
on the `reconnect_attempts` counter.  The counter is incremented first; if it
now exceeds `max_reconnect_attempts` a `RuntimeError` is raised (no reconnect
is attempted); otherwise the code sleeps `reconnect_wait` and calls
`open()` — on success it resets the counter to 0 and returns `True`, on an
exception it returns `False` leaving the counter incremented. -/
def try_reconnect (config : Config) (probe : LinkProbe) (attempts : Nat) :
    HealthOutcome × Nat :=
  let attempts := attempts + 1
  if attempts > config.max_reconnect_attempts then
    (HealthOutcome.fatal "Serial connection lost", attempts)
  else if probe.open_succeeds then
    (HealthOutcome.ret true, 0)
  else
    (HealthOutcome.ret false, attempts)

/-- `DisplayManager.check_health` from `src/main.py` (lines 78–91): returns
the outcome together with the new `reconnect_attempts` counter.  If the LCD
is simulated it returns `False` at once; if the serial probe fails it runs
`_try_reconnect`; otherwise it resets the counter to 0 and returns `False`. -/
def check_health (config : Config) (probe : LinkProbe) (attempts : Nat) :
    HealthOutcome × Nat :=
  if probe.is_LcdSimulated then
    (HealthOutcome.ret false, attempts)
  else if !probe.serial_is_open then
    try_reconnect config probe attempts
  else
    (HealthOutcome.ret false, 0)

/-! ## `src/library/metric_collector.py`: configuration model and validation -/

/-- `MetricType` enumeration (metric_collector.py lines 24–33). -/
inductive MetricType where
  | CPU | GPU | MEMORY | DISK | NETWORK | SENSOR | WEATHER | CUSTOM
deriving DecidableEq, Repr

/-- The `str` value of a `MetricType` member (the `= "cpu"` etc. payloads). -/
def MetricType.value : MetricType → String
  | .CPU => "cpu"
  | .GPU => "gpu"
  | .MEMORY => "memory"
  | .DISK => "disk"
  | .NETWORK => "network"
  | .SENSOR => "sensor"
  | .WEATHER => "weather"
  | .CUSTOM => "custom"

/-- A validated `MetricTaskConfig` (metric_collector.py lines 36–75); a value
of this type only ever arises from `mkMetricTaskConfig`, which performs the
pydantic validation. -/
structure MetricTaskConfig where
  name : String
  metric_type : MetricType
  interval_seconds : ℚ
  enabled : Bool
  max_instances : Nat
deriving DecidableEq, Repr

/-- The `validate_interval` field validator (metric_collector.py lines 67–75):
rejects intervals below `0.1` or above `86400`, returns the value unchanged
otherwise. -/
def validate_interval (v : ℚ) : Except String ℚ :=
  if v < 1 / 10 then
    Except.error "Interval too short, minimum 0.1 seconds"
  else if v > 86400 then
    Except.error "Interval too long, maximum 86400 seconds"
  else
    Except.ok v

/-- Construction of a `MetricTaskConfig`: pydantic first enforces the `Field`
constraints (`interval_seconds` with `gt=0.0`, `max_instances` with `ge=1`),
then runs the `validate_interval` field validator; any failure raises a
`ValidationError` and no object is produced. -/
def mkMetricTaskConfig (name : String) (metric_type : MetricType)
    (interval_seconds : ℚ) (enabled : Bool) (max_instances : Nat) :
    Except String MetricTaskConfig :=
  if ¬ interval_seconds > 0 then
    Except.error "Input should be greater than 0"
  else if ¬ max_instances ≥ 1 then
    Except.error "Input should be greater than or equal to 1"
  else
    match validate_interval interval_seconds with
    | Except.error e => Except.error e
    | Except.ok v =>
        Except.ok ⟨name, metric_type, v, enabled, max_instances⟩

/-- A validated `MetricCollectorConfig` (metric_collector.py lines 78–108). -/
structure MetricCollectorConfig where
  max_workers : Nat
  tasks : List MetricTaskConfig
deriving DecidableEq, Repr

/-- The `validate_unique_names` field validator (metric_collector.py lines
101–108): collects the task names and rejects when `len(names)` differs from
`len(set(names))` (the number of distinct names, modelled by `List.dedup`). -/
def validate_unique_names (v : List MetricTaskConfig) :
    Except String (List MetricTaskConfig) :=
  if (v.map (fun t => t.name)).length ≠ (v.map (fun t => t.name)).dedup.length then
    Except.error "Task names must be unique"
  else
    Except.ok v

/-- Construction of a `MetricCollectorConfig`: pydantic enforces the
`max_workers` bounds (`ge=1`, `le=32`) and runs `validate_unique_names` on
the task list. -/
def mkMetricCollectorConfig (max_workers : Nat) (tasks : List MetricTaskConfig) :
    Except String MetricCollectorConfig :=
  if ¬ (max_workers ≥ 1 ∧ max_workers ≤ 32) then
    Except.error "max_workers out of range"
  else
    match validate_unique_names tasks with
    | Except.error e => Except.error e
    | Except.ok ts => Except.ok ⟨max_workers, ts⟩

/-! ## `MetricCollector` runtime: handlers, scheduler state, start/pause/resume

Handlers are opaque zero-argument callables; the collector only stores and
dispatches them, so they are modelled as opaque tokens (`Nat`).  The
APScheduler `BackgroundScheduler` is modelled by the state it keeps that the
collector's API touches: the job list (id, display name, bound callable,
interval-trigger period, `max_instances` cap, paused flag) and the running
flag. -/

abbrev Handler := Nat

/-- A job held by the `BackgroundScheduler`, as created by
`scheduler.add_job` in `MetricCollector.start` (metric_collector.py lines
185–192).  `paused` models a job whose `next_run_time` has been cleared by
`pause_job`. -/
structure ScheduledJob where
  id : String
  jobName : String
  func : Handler
  interval_seconds : ℚ
  max_instances : Nat
  paused : Bool
deriving DecidableEq, Repr

/-- The scheduler state the collector's API reads and writes. -/
structure SchedulerState where
  jobs : List ScheduledJob
  running : Bool
deriving DecidableEq, Repr

/-- A freshly constructed `BackgroundScheduler`: no jobs, not running. -/
def SchedulerState.initial : SchedulerState := ⟨[], false⟩

/-- `scheduler.add_job(..., replace_existing=True)`: a job with the same id
is replaced in place, otherwise the job is appended. -/
def add_job (s : SchedulerState) (j : ScheduledJob) : SchedulerState :=
  if s.jobs.any (fun k => k.id == j.id) then
    { s with jobs := s.jobs.map (fun k => if k.id == j.id then j else k) }
  else
    { s with jobs := s.jobs ++ [j] }

/-- `scheduler.pause_job(job_id)`.  Modelled from APScheduler 3.x documented
behaviour (the library itself is outside this repository): pausing clears the
job's next run time; when no job with the given id exists the scheduler
raises `JobLookupError`. -/
def pause_job (s : SchedulerState) (job_id : String) :
    Except String SchedulerState :=
  if s.jobs.any (fun k => k.id == job_id) then
    let js := s.jobs.map
      (fun k => if k.id == job_id then { k with paused := true } else k)
    Except.ok { s with jobs := js }
  else
    Except.error ("No job by the id of " ++ job_id ++ " was found")

/-- `scheduler.resume_job(job_id)`.  Modelled from APScheduler 3.x documented
behaviour: resuming recomputes the job's next run time; when no job with the
given id exists the scheduler raises `JobLookupError`. -/
def resume_job (s : SchedulerState) (job_id : String) :
    Except String SchedulerState :=
  if s.jobs.any (fun k => k.id == job_id) then
    let js := s.jobs.map
      (fun k => if k.id == job_id then { k with paused := false } else k)
    Except.ok { s with jobs := js }
  else
    Except.error ("No job by the id of " ++ job_id ++ " was found")

/-- The mutable state of a `MetricCollector` (metric_collector.py lines
111–236): its validated config, the `task_handlers` dict (insertion-ordered
association list, as a Python dict is) and its `BackgroundScheduler`. -/
structure MetricCollector where
  config : MetricCollectorConfig
  task_handlers : List (String × Handler)
  scheduler : SchedulerState
deriving DecidableEq, Repr

/-- Python dict assignment `d[k] = v`: overwrite in place or append. -/
def dict_set (d : List (String × Handler)) (k : String) (v : Handler) :
    List (String × Handler) :=
  if d.any (fun p => p.1 == k) then
    d.map (fun p => if p.1 == k then (k, v) else p)
  else
    d ++ [(k, v)]

/-- Python dict lookup `d[k]` / `k in d` combined: `none` when absent. -/
def dict_get? (d : List (String × Handler)) (k : String) : Option Handler :=
  (d.find? (fun p => p.1 == k)).map (fun p => p.2)

/-- `MetricCollector.register_task_handler` (lines 151–162):
`self.task_handlers[task_name] = handler`, last write wins. -/
def MetricCollector.register_task_handler (c : MetricCollector)
    (task_name : String) (handler : Handler) : MetricCollector :=
  { c with task_handlers := dict_set c.task_handlers task_name handler }

/-- One iteration of the `for task_config in self.config.tasks` loop body in
`MetricCollector.start` (lines 172–197): a disabled task is skipped, a task
whose name has no registered handler is skipped with a warning, and otherwise
`add_job` is called with the task's name as id, an `IntervalTrigger` at its
`interval_seconds`, its `max_instances` cap and `replace_existing=True`. -/
def start_step (handlers : List (String × Handler)) (s : SchedulerState)
    (task_config : MetricTaskConfig) : SchedulerState :=
  if !task_config.enabled then s
  else
    match dict_get? handlers task_config.name with
    | none => s
    | some handler =>
        add_job s
          { id := task_config.name
            jobName := task_config.metric_type.value ++ ": " ++ task_config.name
            func := handler
            interval_seconds := task_config.interval_seconds
            max_instances := task_config.max_instances
            paused := false }

/-- `MetricCollector.start` (lines 164–200): when `task_handlers` is empty it
logs a warning and returns at once (no job added, scheduler not started);
otherwise it runs the scheduling loop over `config.tasks` and then calls
`scheduler.start()` (modelled by setting `running := true`). -/
def MetricCollector.start (c : MetricCollector) : MetricCollector :=
  if c.task_handlers.isEmpty then c
  else
    let s := c.config.tasks.foldl (start_step c.task_handlers) c.scheduler
    { c with scheduler := { s with running := true } }

/-- `MetricCollector.pause_task` (lines 213–216): delegates to
`scheduler.pause_job(task_name)` with no exception handling, then logs. -/
def MetricCollector.pause_task (c : MetricCollector) (task_name : String) :
    Except String MetricCollector :=
  match pause_job c.scheduler task_name with
  | Except.error e => Except.error e
  | Except.ok s => Except.ok { c with scheduler := s }

/-- `MetricCollector.resume_task` (lines 218–221): delegates to
`scheduler.resume_job(task_name)` with no exception handling, then logs. -/
def MetricCollector.resume_task (c : MetricCollector) (task_name : String) :
    Except String MetricCollector :=
  match resume_job c.scheduler task_name with
  | Except.error e => Except.error e
  | Except.ok s => Except.ok { c with scheduler := s }

/-! ## The output-queue worker (`SchedulerManager.start_queue_handler`) -/

/-- One `(f, args)` entry of `config.update_queue`.  `op opId raises` models
an entry whose callable, when invoked, performs its device write (recorded
under `opId`) and then either returns normally (`raises = false`) or raises
(`raises = true`); `noFun` models an entry whose `f` is falsy, which the
worker dequeues but does not invoke. -/
inductive QueueOp where
  | op (opId : Nat) (raises : Bool)
  | noFun
deriving DecidableEq, Repr

/-- Invoking one dequeued entry: `if f: f(*args)` appends the operation's
write to the log and reports whether the call raised. -/
def invoke_op (log : List Nat) (o : QueueOp) : List Nat × Bool :=
  match o with
  | QueueOp.op i r => (log ++ [i], r)
  | QueueOp.noFun => (log, false)

/-- The `queue_handler_loop` of `SchedulerManager.start_queue_handler`
(main.py lines 165–175), drained over the queue's contents while
`self._stopping` stays false: each iteration dequeues the next entry and
invokes it inside a bare `try: ... except: pass`, so an exception raised by
`f(*args)` is swallowed (the second component of `invoke_op` is discarded)
and the loop goes on to the next entry.  Returns the log of device writes
performed. -/
def queue_handler_loop (ops : List QueueOp) (log : List Nat) : List Nat :=
  match ops with
  | [] => log
  | o :: rest => queue_handler_loop rest (invoke_op log o).1

/-! ## `create_default_config_from_theme` -/

/-- The `'STATS'` sub-dictionary of `config.THEME_DATA`, holding each
metric's `'INTERVAL'` value; a missing key reads as `0` through
`.get('INTERVAL', 0)`, so absence is modelled by the value `0`. -/
structure ThemeStats where
  cpu_percentage : ℚ
  cpu_frequency : ℚ
  cpu_load : ℚ
  cpu_temperature : ℚ
  cpu_fan_speed : ℚ
  gpu : ℚ
  memory : ℚ
  disk : ℚ
  net : ℚ
  weather : ℚ
deriving DecidableEq, Repr

/-- The ten sequential conditional appends of
`create_default_config_from_theme` (metric_collector.py lines 251–329), in
source order, as (gate interval tested `> 0`, task name, metric type,
`interval_seconds` passed to the constructor) tuples.  Only the weather entry
passes an interval different from its gate: `max(300.0, interval)`. -/
def theme_entries (s : ThemeStats) : List (ℚ × String × MetricType × ℚ) :=
  [ (s.cpu_percentage, "cpu_percentage", MetricType.CPU, s.cpu_percentage),
    (s.cpu_frequency, "cpu_frequency", MetricType.CPU, s.cpu_frequency),
    (s.cpu_load, "cpu_load", MetricType.CPU, s.cpu_load),
    (s.cpu_temperature, "cpu_temperature", MetricType.CPU, s.cpu_temperature),
    (s.cpu_fan_speed, "cpu_fan_speed", MetricType.CPU, s.cpu_fan_speed),
    (s.gpu, "gpu_stats", MetricType.GPU, s.gpu),
    (s.memory, "memory_stats", MetricType.MEMORY, s.memory),
    (s.disk, "disk_stats", MetricType.DISK, s.disk),
    (s.net, "net_stats", MetricType.NETWORK, s.net),
    (s.weather, "weather_stats", MetricType.WEATHER, max 300 s.weather) ]

/-- One conditional append `if gate > 0: tasks.append(MetricTaskConfig(...))`
(enabled and max_instances take their defaults `True` and `1`); the
constructor validates and may raise, aborting the whole builder. -/
def append_theme_task (acc : Except String (List MetricTaskConfig))
    (e : ℚ × String × MetricType × ℚ) : Except String (List MetricTaskConfig) :=
  match acc with
  | Except.error msg => Except.error msg
  | Except.ok tasks =>
      if e.1 > 0 then
        match mkMetricTaskConfig e.2.1 e.2.2.1 e.2.2.2 true 1 with
        | Except.error msg => Except.error msg
        | Except.ok t => Except.ok (tasks ++ [t])
      else
        Except.ok tasks

/-- `create_default_config_from_theme` (lines 239–334): runs the ten
conditional appends in order, then constructs
`MetricCollectorConfig(max_workers=4, tasks=tasks)`. -/
def create_default_config_from_theme (s : ThemeStats) :
    Except String MetricCollectorConfig :=
  match (theme_entries s).foldl append_theme_task (Except.ok []) with
  | Except.error msg => Except.error msg
  | Except.ok tasks => mkMetricCollectorConfig 4 tasks

/-! ## Helper lemmas -/

/-- Successful construction of a `MetricTaskConfig`: an interval within
`[0.1, 86400]` and a positive instance cap pass every check and the fields
are stored unchanged. -/
theorem mkMetricTaskConfig_ok (name : String) (mt : MetricType) (v : ℚ)
    (enabled : Bool) (mi : Nat) (h1 : 1 / 10 ≤ v) (h2 : v ≤ 86400)
    (hmi : 1 ≤ mi) :
    mkMetricTaskConfig name mt v enabled mi =
      Except.ok ⟨name, mt, v, enabled, mi⟩ := by
  have hv0 : (0 : ℚ) < v := lt_of_lt_of_le (by norm_num) h1
  unfold mkMetricTaskConfig validate_interval
  rw [if_neg (not_not_intro hv0), if_neg (not_not_intro hmi),
    if_neg (not_lt.2 h1), if_neg (not_lt.2 h2)]

/-- A nonpositive interval fails the pydantic `gt=0.0` field constraint. -/
theorem mkMetricTaskConfig_err_nonpos (name : String) (mt : MetricType)
    (v : ℚ) (enabled : Bool) (mi : Nat) (hle : v ≤ 0) :
    mkMetricTaskConfig name mt v enabled mi =
      Except.error "Input should be greater than 0" := by
  unfold mkMetricTaskConfig
  rw [if_pos (not_lt.2 hle)]

/-- A positive interval below `0.1` fails the `validate_interval` check. -/
theorem mkMetricTaskConfig_err_low (name : String) (mt : MetricType)
    (v : ℚ) (enabled : Bool) (mi : Nat) (hpos : 0 < v) (hlow : v < 1 / 10)
    (hmi : 1 ≤ mi) :
    mkMetricTaskConfig name mt v enabled mi =
      Except.error "Interval too short, minimum 0.1 seconds" := by
  unfold mkMetricTaskConfig validate_interval
  rw [if_neg (not_not_intro hpos), if_neg (not_not_intro hmi), if_pos hlow]

/-- An interval above `86400` fails the `validate_interval` check. -/
theorem mkMetricTaskConfig_err_high (name : String) (mt : MetricType)
    (v : ℚ) (enabled : Bool) (mi : Nat) (hhigh : 86400 < v) (hmi : 1 ≤ mi) :
    mkMetricTaskConfig name mt v enabled mi =
      Except.error "Interval too long, maximum 86400 seconds" := by
  have hpos : (0 : ℚ) < v := lt_trans (by norm_num) hhigh
  have hge : ¬ v < 1 / 10 := by push_neg; linarith
  unfold mkMetricTaskConfig validate_interval
  rw [if_neg (not_not_intro hpos), if_neg (not_not_intro hmi), if_neg hge,
    if_pos hhigh]

/-- A zero instance cap fails a pydantic field constraint, so no record is
produced either. -/
theorem mkMetricTaskConfig_err_cap (name : String) (mt : MetricType) (v : ℚ)
    (enabled : Bool) (mi : Nat) (hmi : ¬ 1 ≤ mi) (c : MetricTaskConfig) :
    mkMetricTaskConfig name mt v enabled mi ≠ Except.ok c := by
  unfold mkMetricTaskConfig
  rcases lt_or_le (0 : ℚ) v with hpos | hle
  · rw [if_neg (not_not_intro hpos), if_pos hmi]
    intro h
    cases h
  · rw [if_pos (not_lt.2 hle)]
    intro h
    cases h

/-- Inversion: a successful construction forces the interval bounds and
determines the resulting record. -/
theorem mkMetricTaskConfig_ok_inv (name : String) (mt : MetricType) (v : ℚ)
    (enabled : Bool) (mi : Nat) (c : MetricTaskConfig)
    (hc : mkMetricTaskConfig name mt v enabled mi = Except.ok c) :
    (1 / 10 ≤ v ∧ v ≤ 86400) ∧ c = ⟨name, mt, v, enabled, mi⟩ := by
  by_cases hmi : 1 ≤ mi
  · rcases lt_or_le v (1 / 10) with hlow | hge
    · rcases le_or_lt v 0 with hle | hpos
      · rw [mkMetricTaskConfig_err_nonpos name mt v enabled mi hle] at hc
        cases hc
      · rw [mkMetricTaskConfig_err_low name mt v enabled mi hpos hlow hmi] at hc
        cases hc
    · rcases le_or_lt v 86400 with hle86 | hhigh
      · rw [mkMetricTaskConfig_ok name mt v enabled mi hge hle86 hmi] at hc
        injection hc with h
        exact ⟨⟨hge, hle86⟩, h.symm⟩
      · rw [mkMetricTaskConfig_err_high name mt v enabled mi hhigh hmi] at hc
        cases hc
  · exact absurd hc (mkMetricTaskConfig_err_cap name mt v enabled mi hmi c)

/-- The length test of `validate_unique_names` is exactly distinctness:
`len(names) == len(set(names))` iff the list has no duplicate. -/
theorem length_eq_dedup_length_iff_nodup {α : Type} [DecidableEq α]
    (l : List α) : l.length = l.dedup.length ↔ l.Nodup := by
  constructor
  · intro h
    exact List.dedup_eq_self.1 ((List.dedup_sublist l).eq_of_length h.symm)
  · intro h
    rw [List.dedup_eq_self.2 h]

/-- Successful construction of a `MetricCollectorConfig` from a list of
tasks with pairwise-distinct names. -/
theorem mkMetricCollectorConfig_ok (mw : Nat) (tasks : List MetricTaskConfig)
    (h1 : 1 ≤ mw) (h2 : mw ≤ 32)
    (hn : (tasks.map (fun t => t.name)).Nodup) :
    mkMetricCollectorConfig mw tasks = Except.ok ⟨mw, tasks⟩ := by
  have hlen := (length_eq_dedup_length_iff_nodup
    (tasks.map (fun t => t.name))).2 hn
  unfold mkMetricCollectorConfig validate_unique_names
  rw [if_neg (not_not_intro ⟨h1, h2⟩), if_neg (not_not_intro hlen)]

/-! ## Claim theorems: link health (C1, C10) -/

/-- **C1.** The reconnection bookkeeping of `DisplayManager.check_health`
follows the specified state machine (for a non-simulated display, hence for
every point of every sequence of health checks, since the counter is the
whole carried state): a passing probe returns `continue` with the counter at
0; a successful reconnect attempt (while the counter has not exceeded the
maximum) resets the counter to 0 and signals restart; a failed reconnect
attempt leaves the counter incremented and returns `continue`; and once the
incremented counter exceeds `max_reconnect_attempts` the check raises
`RuntimeError` and performs no reconnect attempt at all (the outcome does not
depend on whether a reconnect would have succeeded). -/
theorem check_health_state_machine (config : Config) (probe : LinkProbe)
    (attempts : Nat) (hsim : probe.is_LcdSimulated = false) :
    (probe.serial_is_open = true →
      check_health config probe attempts = (HealthOutcome.ret false, 0)) ∧
    (probe.serial_is_open = false → probe.open_succeeds = true →
      attempts + 1 ≤ config.max_reconnect_attempts →
      check_health config probe attempts = (HealthOutcome.ret true, 0)) ∧
    (probe.serial_is_open = false → probe.open_succeeds = false →
      attempts + 1 ≤ config.max_reconnect_attempts →
      check_health config probe attempts =
        (HealthOutcome.ret false, attempts + 1)) ∧
    (probe.serial_is_open = false →
      config.max_reconnect_attempts < attempts + 1 →
      check_health config probe attempts =
        (HealthOutcome.fatal "Serial connection lost", attempts + 1)) := by
  refine ⟨?_, ?_, ?_, ?_⟩ <;> intros <;>
    simp_all [check_health, try_reconnect]

/-- Witness for C1: with the default config (`max_reconnect_attempts = 20`),
a disconnected probe whose reconnect succeeds at counter 0 yields a restart
signal with the counter reset. -/
theorem check_health_state_machine_witness :
    check_health {} ⟨false, false, true⟩ 0 = (HealthOutcome.ret true, 0) :=
  (check_health_state_machine {} ⟨false, false, true⟩ 0 rfl).2.1
    rfl rfl (by decide)

/-- **C10.** When the display is LCD-simulated, `check_health` returns
`False` (continue) and leaves the reconnect counter untouched, for every
value of the serial probe and of the reconnect outcome — so no probe and no
reconnect attempt can influence the result. -/
theorem check_health_lcd_simulated (config : Config) (probe : LinkProbe)
    (attempts : Nat) (hsim : probe.is_LcdSimulated = true) :
    check_health config probe attempts = (HealthOutcome.ret false, attempts) := by
  simp [check_health, hsim]

/-- Witness for C10: the simulated display at counter 7 keeps counter 7 and
continues, even with a closed serial port. -/
theorem check_health_lcd_simulated_witness :
    check_health {} ⟨true, false, false⟩ 7 = (HealthOutcome.ret false, 7) :=
  check_health_lcd_simulated {} ⟨true, false, false⟩ 7 rfl

/-! ## Claim theorems: configuration validation (C4, C5) -/

/-- **C4.** Construction of a task configuration succeeds exactly when
`interval_seconds` lies in the closed range `[0.1, 86400]`; an accepted
interval is stored unchanged, and an interval outside the range is rejected
with a validation error. -/
theorem mkMetricTaskConfig_accepts_iff_interval_in_bounds (name : String)
    (mt : MetricType) (v : ℚ) (enabled : Bool) (mi : Nat) (hmi : 1 ≤ mi) :
    ((∃ c, mkMetricTaskConfig name mt v enabled mi = Except.ok c) ↔
      1 / 10 ≤ v ∧ v ≤ 86400) ∧
    (∀ c, mkMetricTaskConfig name mt v enabled mi = Except.ok c →
      c.interval_seconds = v) ∧
    (v < 1 / 10 ∨ 86400 < v →
      ∃ msg, mkMetricTaskConfig name mt v enabled mi = Except.error msg) := by
  refine ⟨⟨?_, ?_⟩, ?_, ?_⟩
  · rintro ⟨c, hc⟩
    exact (mkMetricTaskConfig_ok_inv name mt v enabled mi c hc).1
  · rintro ⟨hl, hh⟩
    exact ⟨_, mkMetricTaskConfig_ok name mt v enabled mi hl hh hmi⟩
  · intro c hc
    rw [(mkMetricTaskConfig_ok_inv name mt v enabled mi c hc).2]
  · rintro (hlow | hhigh)
    · rcases le_or_lt v 0 with hle | hpos
      · exact ⟨_, mkMetricTaskConfig_err_nonpos name mt v enabled mi hle⟩
      · exact ⟨_, mkMetricTaskConfig_err_low name mt v enabled mi hpos hlow hmi⟩
    · exact ⟨_, mkMetricTaskConfig_err_high name mt v enabled mi hhigh hmi⟩

/-- Witness for C4: the boundary interval `0.1` is accepted unchanged, and
the out-of-range intervals `0.05` and `90000` are rejected. -/
theorem mkMetricTaskConfig_accepts_iff_interval_in_bounds_witness :
    (∃ c, mkMetricTaskConfig "cpu_percentage" MetricType.CPU (1 / 10) true 1 =
      Except.ok c) ∧
    (∃ msg, mkMetricTaskConfig "cpu_percentage" MetricType.CPU (5 / 100) true 1 =
      Except.error msg) ∧
    (∃ msg, mkMetricTaskConfig "cpu_percentage" MetricType.CPU 90000 true 1 =
      Except.error msg) :=
  ⟨(mkMetricTaskConfig_accepts_iff_interval_in_bounds "cpu_percentage"
      MetricType.CPU (1 / 10) true 1 (by decide)).1.mpr (by norm_num),
   (mkMetricTaskConfig_accepts_iff_interval_in_bounds "cpu_percentage"
      MetricType.CPU (5 / 100) true 1 (by decide)).2.2 (by norm_num),
   (mkMetricTaskConfig_accepts_iff_interval_in_bounds "cpu_percentage"
      MetricType.CPU 90000 true 1 (by decide)).2.2 (by norm_num)⟩

/-- **C5.** Construction of the collector configuration succeeds (with the
task list kept as given) exactly when the task names are pairwise distinct;
a list containing a duplicated name is rejected with the validation error. -/
theorem mkMetricCollectorConfig_unique_names (mw : Nat)
    (tasks : List MetricTaskConfig) (h1 : 1 ≤ mw) (h2 : mw ≤ 32) :
    (mkMetricCollectorConfig mw tasks = Except.ok ⟨mw, tasks⟩ ↔
      (tasks.map (fun t => t.name)).Nodup) ∧
    (¬ (tasks.map (fun t => t.name)).Nodup →
      mkMetricCollectorConfig mw tasks =
        Except.error "Task names must be unique") := by
  by_cases hn : (tasks.map (fun t => t.name)).Nodup
  · refine ⟨⟨fun _ => hn, fun _ => ?_⟩, fun h => absurd hn h⟩
    exact mkMetricCollectorConfig_ok mw tasks h1 h2 hn
  · have hlen : (tasks.map (fun t => t.name)).length ≠
        (tasks.map (fun t => t.name)).dedup.length :=
      fun h => hn ((length_eq_dedup_length_iff_nodup _).1 h)
    have herr : mkMetricCollectorConfig mw tasks =
        Except.error "Task names must be unique" := by
      unfold mkMetricCollectorConfig validate_unique_names
      rw [if_neg (not_not_intro ⟨h1, h2⟩), if_pos hlen]
    refine ⟨⟨fun hc => ?_, fun h => absurd h hn⟩, fun _ => herr⟩
    rw [herr] at hc
    cases hc

/-- Witness for C5: two tasks both named `cpu_percentage` are rejected, and
two distinctly named tasks are accepted. -/
theorem mkMetricCollectorConfig_unique_names_witness :
    mkMetricCollectorConfig 4
      [⟨"cpu_percentage", MetricType.CPU, 1, true, 1⟩,
       ⟨"cpu_percentage", MetricType.CPU, 2, true, 1⟩] =
      Except.error "Task names must be unique" ∧
    mkMetricCollectorConfig 4
      [⟨"cpu_percentage", MetricType.CPU, 1, true, 1⟩,
       ⟨"memory_stats", MetricType.MEMORY, 2, true, 1⟩] =
      Except.ok ⟨4, [⟨"cpu_percentage", MetricType.CPU, 1, true, 1⟩,
                     ⟨"memory_stats", MetricType.MEMORY, 2, true, 1⟩]⟩ :=
  ⟨(mkMetricCollectorConfig_unique_names 4 _ (by decide) (by decide)).2
      (by decide),
   (mkMetricCollectorConfig_unique_names 4 _ (by decide) (by decide)).1.mpr
      (by decide)⟩

/-! ## Claim theorems: collector start (C6, C7) -/

/-- **C6.** `start()` with no registered handler at all is a no-op: it
returns (a total function in this embedding, so it cannot raise), schedules
no job and does not start the scheduler — the collector state is unchanged
(only a warning is logged). -/
theorem start_no_handlers (c : MetricCollector) (h : c.task_handlers = []) :
    c.start = c := by
  simp [MetricCollector.start, h]

/-- Witness for C6: a concrete collector with two configured tasks but no
handler is left untouched by `start`. -/
theorem start_no_handlers_witness :
    MetricCollector.start
      ⟨⟨4, [⟨"cpu_percentage", MetricType.CPU, 1, true, 1⟩,
            ⟨"memory_stats", MetricType.MEMORY, 2, true, 1⟩]⟩,
       [], SchedulerState.initial⟩ =
    ⟨⟨4, [⟨"cpu_percentage", MetricType.CPU, 1, true, 1⟩,
          ⟨"memory_stats", MetricType.MEMORY, 2, true, 1⟩]⟩,
     [], SchedulerState.initial⟩ :=
  start_no_handlers _ rfl

/-- The job `MetricCollector.start` creates for task `t` bound to handler
`h`: id is the task name, display name is `"{metric_type.value}: {name}"`,
the interval trigger fires at the task's `interval_seconds`, and the task's
`max_instances` cap is passed through. -/
def job_of (t : MetricTaskConfig) (h : Handler) : ScheduledJob :=
  { id := t.name
    jobName := t.metric_type.value ++ ": " ++ t.name
    func := h
    interval_seconds := t.interval_seconds
    max_instances := t.max_instances
    paused := false }

/-- The jobs the scheduling loop of `start` creates: one per enabled task
whose name has a registered handler, in configuration order. -/
def scheduled_jobs (handlers : List (String × Handler))
    (tasks : List MetricTaskConfig) : List ScheduledJob :=
  tasks.filterMap (fun t =>
    if t.enabled then (dict_get? handlers t.name).map (job_of t) else none)

/-- The scheduling loop, run from a state whose jobs avoid all task names,
appends exactly `scheduled_jobs` (task names assumed pairwise distinct, as
`MetricCollectorConfig` validation guarantees). -/
theorem start_foldl_jobs (handlers : List (String × Handler))
    (tasks : List MetricTaskConfig) (s : SchedulerState)
    (hdisj : ∀ t ∈ tasks, ∀ j ∈ s.jobs, j.id ≠ t.name)
    (hnodup : (tasks.map (fun t => t.name)).Nodup) :
    tasks.foldl (start_step handlers) s =
      { s with jobs := s.jobs ++ scheduled_jobs handlers tasks } := by
  induction tasks generalizing s with
  | nil => simp [scheduled_jobs]
  | cons t rest ih =>
    have hrest_nodup : (rest.map (fun x => x.name)).Nodup :=
      (List.nodup_cons.1 (by simpa using hnodup)).2
    have hname_notin : t.name ∉ rest.map (fun x => x.name) :=
      (List.nodup_cons.1 (by simpa using hnodup)).1
    rw [List.foldl_cons]
    cases hen : t.enabled with
    | false =>
      have hstep : start_step handlers s t = s := by
        simp [start_step, hen]
      have hsj : scheduled_jobs handlers (t :: rest) =
          scheduled_jobs handlers rest := by
        simp [scheduled_jobs, hen]
      rw [hstep, hsj,
        ih s (fun t' ht' => hdisj t' (List.mem_cons_of_mem t ht')) hrest_nodup]
    | true =>
      cases hh : dict_get? handlers t.name with
      | none =>
        have hstep : start_step handlers s t = s := by
          simp [start_step, hen, hh]
        have hsj : scheduled_jobs handlers (t :: rest) =
            scheduled_jobs handlers rest := by
          simp [scheduled_jobs, hen, hh]
        rw [hstep, hsj,
          ih s (fun t' ht' => hdisj t' (List.mem_cons_of_mem t ht')) hrest_nodup]
      | some hd =>
        have hstep : start_step handlers s t = add_job s (job_of t hd) := by
          simp [start_step, hen, hh, job_of]
        have hany : s.jobs.any (fun k => k.id == (job_of t hd).id) = false := by
          rw [List.any_eq_false]
          intro k hk
          simp only [job_of]
          intro hbeq
          exact hdisj t (List.mem_cons_self t rest) k hk (by simpa using hbeq)
        have hadd : add_job s (job_of t hd) =
            { s with jobs := s.jobs ++ [job_of t hd] } := by
          unfold add_job
          rw [hany]
          simp
        have hdisj' : ∀ t' ∈ rest,
            ∀ j ∈ (s.jobs ++ [job_of t hd]), j.id ≠ t'.name := by
          intro t' ht' j hj
          rcases List.mem_append.1 hj with hjs | hjnew
          · exact hdisj t' (List.mem_cons_of_mem t ht') j hjs
          · have : j = job_of t hd := by simpa using hjnew
            subst this
            show t.name ≠ t'.name
            intro hcontra
            exact hname_notin (hcontra ▸ List.mem_map_of_mem (fun x => x.name) ht')
        have hsj : scheduled_jobs handlers (t :: rest) =
            job_of t hd :: scheduled_jobs handlers rest := by
          simp [scheduled_jobs, hen, hh]
        rw [hstep, hadd, ih _ hdisj' hrest_nodup, hsj]
        simp

/-- **C7.** With at least one registered handler, `start` schedules exactly
the configured tasks that are enabled and have a registered handler: every
such task gets the job `job_of` (interval trigger at its configured
`interval_seconds`, its `max_instances` cap), every job comes from such a
task, disabled or handler-less tasks get no job, and the scheduler is
started. -/
theorem start_schedules_enabled_handled_tasks (c : MetricCollector)
    (hne : c.task_handlers ≠ [])
    (hfresh : c.scheduler.jobs = [])
    (hnodup : (c.config.tasks.map (fun t => t.name)).Nodup) :
    c.start.scheduler.jobs = scheduled_jobs c.task_handlers c.config.tasks ∧
    c.start.scheduler.running = true ∧
    (∀ t ∈ c.config.tasks, t.enabled = true →
      ∀ h, dict_get? c.task_handlers t.name = some h →
        job_of t h ∈ c.start.scheduler.jobs) ∧
    (∀ j ∈ c.start.scheduler.jobs, ∃ t ∈ c.config.tasks, ∃ h,
      t.enabled = true ∧ dict_get? c.task_handlers t.name = some h ∧
      j = job_of t h ∧ j.id = t.name ∧
      j.interval_seconds = t.interval_seconds ∧
      j.max_instances = t.max_instances) ∧
    (∀ t ∈ c.config.tasks,
      t.enabled = false ∨ dict_get? c.task_handlers t.name = none →
      ∀ j ∈ c.start.scheduler.jobs, j.id ≠ t.name) := by
  have hfold := start_foldl_jobs c.task_handlers c.config.tasks c.scheduler
    (by intro t _ j hj; rw [hfresh] at hj; cases hj) hnodup
  have hempty : c.task_handlers.isEmpty = false := by
    cases hcase : c.task_handlers with
    | nil => exact absurd hcase hne
    | cons a l => rfl
  have hstart : c.start.scheduler.jobs =
      scheduled_jobs c.task_handlers c.config.tasks ∧
      c.start.scheduler.running = true := by
    unfold MetricCollector.start
    rw [hempty]
    simp [hfold, hfresh]
  have hmem_inv : ∀ j ∈ scheduled_jobs c.task_handlers c.config.tasks,
      ∃ t ∈ c.config.tasks, ∃ h,
        t.enabled = true ∧ dict_get? c.task_handlers t.name = some h ∧
        j = job_of t h := by
    intro j hj
    rcases List.mem_filterMap.1 hj with ⟨t, ht, hf⟩
    cases hen : t.enabled with
    | false => rw [hen] at hf; cases hf
    | true =>
      rw [hen] at hf
      simp only [if_true] at hf
      rcases Option.map_eq_some'.1 hf with ⟨h, hh, hjh⟩
      exact ⟨t, ht, h, hen, hh, hjh.symm⟩
  refine ⟨hstart.1, hstart.2, ?_, ?_, ?_⟩
  · intro t ht hen h hh
    rw [hstart.1]
    exact List.mem_filterMap.2 ⟨t, ht, by simp [hen, hh]⟩
  · intro j hj
    rw [hstart.1] at hj
    rcases hmem_inv j hj with ⟨t, ht, h, hen, hh, hjh⟩
    exact ⟨t, ht, h, hen, hh, hjh, by rw [hjh]; rfl, by rw [hjh]; rfl,
      by rw [hjh]; rfl⟩
  · intro t ht hskip j hj
    rw [hstart.1] at hj
    rcases hmem_inv j hj with ⟨t', ht', h, hen', hh', hjh⟩
    intro hid
    have hnames : t'.name = t.name := by rw [hjh] at hid; exact hid
    have : t' = t :=
      List.inj_on_of_nodup_map hnodup ht' ht hnames
    subst this
    rcases hskip with hdis | hnone
    · rw [hen'] at hdis; cases hdis
    · rw [hh'] at hnone; cases hnone

/-- Witness for C7: a concrete collector with three tasks (the second
disabled, the third without handler) schedules exactly the first task. -/
theorem start_schedules_enabled_handled_tasks_witness :
    (MetricCollector.start
      ⟨⟨4, [⟨"cpu_percentage", MetricType.CPU, 1, true, 1⟩,
            ⟨"gpu_stats", MetricType.GPU, 2, false, 1⟩,
            ⟨"memory_stats", MetricType.MEMORY, 3, true, 2⟩]⟩,
       [("cpu_percentage", 0), ("gpu_stats", 1)],
       SchedulerState.initial⟩).scheduler.jobs =
    scheduled_jobs [("cpu_percentage", 0), ("gpu_stats", 1)]
      [⟨"cpu_percentage", MetricType.CPU, 1, true, 1⟩,
       ⟨"gpu_stats", MetricType.GPU, 2, false, 1⟩,
       ⟨"memory_stats", MetricType.MEMORY, 3, true, 2⟩] :=
  (start_schedules_enabled_handled_tasks _ (by decide) rfl (by decide)).1

/-! ## Claim theorems: output-queue worker (C8) -/

/-- The log written so far only grows: draining from a longer log is the
longer log followed by draining from the empty log. -/
theorem queue_handler_loop_append_log (ops : List QueueOp) (log : List Nat) :
    queue_handler_loop ops log = log ++ queue_handler_loop ops [] := by
  induction ops generalizing log with
  | nil => simp [queue_handler_loop]
  | cons o rest ih =>
    cases o with
    | op k r =>
      simp only [queue_handler_loop, invoke_op, List.nil_append]
      rw [ih (log ++ [k]), ih [k], List.append_assoc]
    | noFun =>
      simp only [queue_handler_loop, invoke_op]
      exact ih log

/-- The device write one queue entry performs when invoked. -/
def op_write? (o : QueueOp) : Option Nat :=
  match o with
  | QueueOp.op k _ => some k
  | QueueOp.noFun => none

/-- Draining the queue performs every entry's write, in FIFO order, whether
or not any entry raises. -/
theorem queue_handler_loop_drains_all (ops : List QueueOp) :
    queue_handler_loop ops [] = ops.filterMap op_write? := by
  induction ops with
  | nil => rfl
  | cons o rest ih =>
    cases o with
    | op k r =>
      simp only [queue_handler_loop, invoke_op, List.nil_append]
      rw [queue_handler_loop_append_log rest [k], ih]
      simp [op_write?, List.filterMap_cons]
    | noFun =>
      simp only [queue_handler_loop, invoke_op]
      rw [ih]
      simp [op_write?, List.filterMap_cons]

/-- **C8.** An entry that raises does not terminate the queue worker: for
every queue holding a raising operation somewhere before a non-raising
operation, the drained log is still the full FIFO sequence of writes, and in
particular the later operation's write is performed. -/
theorem queue_worker_survives_raising_op (pre mid post : List QueueOp)
    (i j : Nat) :
    queue_handler_loop
        (pre ++ QueueOp.op i true :: (mid ++ QueueOp.op j false :: post)) [] =
      (pre ++ QueueOp.op i true ::
        (mid ++ QueueOp.op j false :: post)).filterMap op_write? ∧
    j ∈ queue_handler_loop
        (pre ++ QueueOp.op i true :: (mid ++ QueueOp.op j false :: post)) [] := by
  constructor
  · exact queue_handler_loop_drains_all _
  · rw [queue_handler_loop_drains_all]
    exact List.mem_filterMap.2 ⟨QueueOp.op j false, by simp, rfl⟩

/-! ## Claim theorems: pause / resume (C3) -/

/-- **C3 counterexample.** `pause_task` on a name that is not currently
scheduled is not a no-op: on a fresh collector with no scheduled job it
propagates the scheduler's `JobLookupError` (an exception, modelled as
`Except.error`), and `resume_task` on the same unscheduled name does too —
refuting the claim at a concrete input. -/
theorem pause_task_unscheduled_raises :
    MetricCollector.pause_task
      ⟨⟨4, []⟩, [("cpu_percentage", 0)], SchedulerState.initial⟩
      "cpu_percentage" =
      Except.error "No job by the id of cpu_percentage was found" ∧
    MetricCollector.resume_task
      ⟨⟨4, []⟩, [("cpu_percentage", 0)], SchedulerState.initial⟩
      "cpu_percentage" =
      Except.error "No job by the id of cpu_percentage was found" := by
  constructor <;> rfl

/-- **C3 (amended).** For every name with no scheduled job, `pause_task` and
`resume_task` raise the scheduler's `JobLookupError` instead of being
no-ops; `resume_task` on a scheduled job that is not paused does return
normally with the collector state unchanged. -/
theorem pause_resume_task_amended (c : MetricCollector) (name : String) :
    ((∀ j ∈ c.scheduler.jobs, j.id ≠ name) →
      c.pause_task name =
        Except.error ("No job by the id of " ++ name ++ " was found") ∧
      c.resume_task name =
        Except.error ("No job by the id of " ++ name ++ " was found")) ∧
    ((∃ j ∈ c.scheduler.jobs, j.id = name) →
      (∀ j ∈ c.scheduler.jobs, j.id = name → j.paused = false) →
      c.resume_task name = Except.ok c) := by
  constructor
  · intro habs
    have hany : c.scheduler.jobs.any (fun k => k.id == name) = false := by
      rw [List.any_eq_false]
      intro k hk
      intro hbeq
      exact habs k hk (by simpa using hbeq)
    constructor
    · unfold MetricCollector.pause_task pause_job
      rw [hany]
      rfl
    · unfold MetricCollector.resume_task resume_job
      rw [hany]
      rfl
  · rintro ⟨j0, hj0, hid⟩ hunp
    have hany : c.scheduler.jobs.any (fun k => k.id == name) = true := by
      rw [List.any_eq_true]
      exact ⟨j0, hj0, by simpa using hid⟩
    have hmap : c.scheduler.jobs.map
        (fun k => if k.id == name then { k with paused := false } else k) =
        c.scheduler.jobs := by
      conv_rhs => rw [← List.map_id c.scheduler.jobs]
      apply List.map_congr_left
      intro k hk
      by_cases hkid : (k.id == name) = true
      · rw [if_pos hkid]
        have hp := hunp k hk (by simpa using hkid)
        cases k
        simp_all
      · rw [if_neg hkid]
        rfl
    unfold MetricCollector.resume_task resume_job
    rw [hany, hmap]
    rfl

/-- Witness for C3 (amended): on a collector with one unpaused job `a`,
pausing the unknown name `nope` raises the lookup error and resuming `a`
returns the collector unchanged. -/
theorem pause_resume_task_amended_witness :
    MetricCollector.pause_task
      ⟨⟨4, []⟩, [("a", 0)], ⟨[⟨"a", "cpu: a", 0, 1, 1, false⟩], true⟩⟩
      "nope" =
      Except.error ("No job by the id of " ++ "nope" ++ " was found") ∧
    MetricCollector.resume_task
      ⟨⟨4, []⟩, [("a", 0)], ⟨[⟨"a", "cpu: a", 0, 1, 1, false⟩], true⟩⟩
      "a" =
      Except.ok ⟨⟨4, []⟩, [("a", 0)],
        ⟨[⟨"a", "cpu: a", 0, 1, 1, false⟩], true⟩⟩ :=
  ⟨((pause_resume_task_amended _ "nope").1 (by decide)).1,
   (pause_resume_task_amended _ "a").2
     ⟨⟨"a", "cpu: a", 0, 1, 1, false⟩, by decide, rfl⟩ (by decide)⟩

/-! ## Claim theorems: theme bridge (C9) -/

/-- Evaluating the conditional-append chain when every gated entry carries
an in-range interval: one task per positive gate, in order, with the passed
interval stored unchanged. -/
theorem foldl_append_theme_task (entries : List (ℚ × String × MetricType × ℚ))
    (acc : List MetricTaskConfig)
    (h : ∀ e ∈ entries, 0 < e.1 → 1 / 10 ≤ e.2.2.2 ∧ e.2.2.2 ≤ 86400) :
    entries.foldl append_theme_task (Except.ok acc) =
      Except.ok (acc ++ (entries.filter (fun e => decide (0 < e.1))).map
        (fun e => ⟨e.2.1, e.2.2.1, e.2.2.2, true, 1⟩)) := by
  induction entries generalizing acc with
  | nil => simp
  | cons e rest ih =>
    rw [List.foldl_cons]
    have hrest := fun e' he' => h e' (List.mem_cons_of_mem e he')
    by_cases he : 0 < e.1
    · obtain ⟨hl, hh⟩ := h e (List.mem_cons_self e rest) he
      have hstep : append_theme_task (Except.ok acc) e =
          Except.ok (acc ++ [⟨e.2.1, e.2.2.1, e.2.2.2, true, 1⟩]) := by
        simp only [append_theme_task]
        rw [if_pos (show e.1 > 0 from he),
          mkMetricTaskConfig_ok e.2.1 e.2.2.1 e.2.2.2 true 1 hl hh (by decide)]
      rw [hstep, ih _ hrest]
      have hfil : (e :: rest).filter (fun x => decide (0 < x.1)) =
          e :: rest.filter (fun x => decide (0 < x.1)) := by
        simp [List.filter_cons, he]
      rw [hfil]
      simp [List.append_assoc]
    · have hstep : append_theme_task (Except.ok acc) e = Except.ok acc := by
        simp only [append_theme_task]
        rw [if_neg (show ¬ e.1 > 0 from he)]
      have hfil : (e :: rest).filter (fun x => decide (0 < x.1)) =
          rest.filter (fun x => decide (0 < x.1)) := by
        simp [List.filter_cons, he]
      rw [hstep, ih _ hrest, hfil]

/-- The task list `create_default_config_from_theme` produces when it
succeeds: one task per metric with a positive configured interval. -/
def theme_tasks (s : ThemeStats) : List MetricTaskConfig :=
  ((theme_entries s).filter (fun e => decide (0 < e.1))).map
    (fun e => ⟨e.2.1, e.2.2.1, e.2.2.2, true, 1⟩)

/-- The ten task names of the theme bridge are pairwise distinct, so the
produced task list always passes `validate_unique_names`. -/
theorem theme_tasks_names_nodup (s : ThemeStats) :
    ((theme_tasks s).map (fun t => t.name)).Nodup := by
  have hsub : List.Sublist
      (((theme_entries s).filter (fun e => decide (0 < e.1))).map
        (fun e => e.2.1))
      ((theme_entries s).map (fun e => e.2.1)) :=
    List.Sublist.map _ (List.filter_sublist _)
  have hall : ((theme_entries s).map (fun e => e.2.1)).Nodup := by
    show (["cpu_percentage", "cpu_frequency", "cpu_load", "cpu_temperature",
      "cpu_fan_speed", "gpu_stats", "memory_stats", "disk_stats", "net_stats",
      "weather_stats"] : List String).Nodup
    decide
  have hmm : (theme_tasks s).map (fun t => t.name) =
      ((theme_entries s).filter (fun e => decide (0 < e.1))).map
        (fun e => e.2.1) := by
    unfold theme_tasks
    rw [List.map_map]
    rfl
  rw [hmm]
  exact hall.sublist hsub

/-- **C9.** For a theme whose configured intervals are all either
non-positive (metric absent) or within validation bounds, and whose weather
interval is positive and at most 86400: the bridge succeeds, the weather
task gets `interval_seconds = max 300 (configured interval)`, and every
other produced task keeps its configured theme interval exactly. -/
theorem create_default_config_weather_floor (s : ThemeStats)
    (h1 : 0 < s.cpu_percentage →
      1 / 10 ≤ s.cpu_percentage ∧ s.cpu_percentage ≤ 86400)
    (h2 : 0 < s.cpu_frequency →
      1 / 10 ≤ s.cpu_frequency ∧ s.cpu_frequency ≤ 86400)
    (h3 : 0 < s.cpu_load → 1 / 10 ≤ s.cpu_load ∧ s.cpu_load ≤ 86400)
    (h4 : 0 < s.cpu_temperature →
      1 / 10 ≤ s.cpu_temperature ∧ s.cpu_temperature ≤ 86400)
    (h5 : 0 < s.cpu_fan_speed →
      1 / 10 ≤ s.cpu_fan_speed ∧ s.cpu_fan_speed ≤ 86400)
    (h6 : 0 < s.gpu → 1 / 10 ≤ s.gpu ∧ s.gpu ≤ 86400)
    (h7 : 0 < s.memory → 1 / 10 ≤ s.memory ∧ s.memory ≤ 86400)
    (h8 : 0 < s.disk → 1 / 10 ≤ s.disk ∧ s.disk ≤ 86400)
    (h9 : 0 < s.net → 1 / 10 ≤ s.net ∧ s.net ≤ 86400)
    (hw : 0 < s.weather) (hwb : s.weather ≤ 86400) :
    create_default_config_from_theme s = Except.ok ⟨4, theme_tasks s⟩ ∧
    (⟨"weather_stats", MetricType.WEATHER, max 300 s.weather, true, 1⟩ :
      MetricTaskConfig) ∈ theme_tasks s ∧
    (∀ cfg, create_default_config_from_theme s = Except.ok cfg →
      ∀ t ∈ cfg.tasks,
        (t.name = "weather_stats" →
          t.interval_seconds = max 300 s.weather) ∧
        (t.name ≠ "weather_stats" →
          ∃ e ∈ theme_entries s, e.2.1 = t.name ∧ e.2.2.2 = e.1 ∧
            t.interval_seconds = e.1)) := by
  have hall : ∀ e ∈ theme_entries s, 0 < e.1 →
      1 / 10 ≤ e.2.2.2 ∧ e.2.2.2 ≤ 86400 := by
    intro e he
    simp only [theme_entries, List.mem_cons, List.not_mem_nil, or_false] at he
    rcases he with h | h | h | h | h | h | h | h | h | h <;> subst h <;>
      intro hg
    · exact h1 hg
    · exact h2 hg
    · exact h3 hg
    · exact h4 hg
    · exact h5 hg
    · exact h6 hg
    · exact h7 hg
    · exact h8 hg
    · exact h9 hg
    · constructor
      · exact le_trans (by norm_num) (le_max_left 300 s.weather)
      · exact max_le (by norm_num) hwb
  have hok : create_default_config_from_theme s = Except.ok ⟨4, theme_tasks s⟩ := by
    unfold create_default_config_from_theme
    rw [foldl_append_theme_task (theme_entries s) [] hall]
    rw [List.nil_append]
    exact mkMetricCollectorConfig_ok 4 _ (by decide) (by decide)
      (theme_tasks_names_nodup s)
  have hwmem : (⟨"weather_stats", MetricType.WEATHER, max 300 s.weather, true,
      1⟩ : MetricTaskConfig) ∈ theme_tasks s := by
    unfold theme_tasks
    apply List.mem_map.2
    refine ⟨(s.weather, "weather_stats", MetricType.WEATHER,
      max 300 s.weather), ?_, rfl⟩
    apply List.mem_filter.2
    exact ⟨by simp [theme_entries], by simpa using hw⟩
  refine ⟨hok, hwmem, ?_⟩
  intro cfg hcfg t ht
  rw [hok] at hcfg
  injection hcfg with hcfg
  subst hcfg
  rcases List.mem_map.1 ht with ⟨e, hef, hte⟩
  have hee : e ∈ theme_entries s := List.mem_of_mem_filter hef
  subst hte
  simp only [theme_entries, List.mem_cons, List.not_mem_nil, or_false] at hee
  rcases hee with h | h | h | h | h | h | h | h | h | h <;> subst h
  · exact ⟨fun hq => absurd
      (show ("cpu_percentage" : String) = "weather_stats" from hq) (by decide),
      fun _ => ⟨(s.cpu_percentage, "cpu_percentage", MetricType.CPU,
        s.cpu_percentage), by simp [theme_entries], rfl, rfl, rfl⟩⟩
  · exact ⟨fun hq => absurd
      (show ("cpu_frequency" : String) = "weather_stats" from hq) (by decide),
      fun _ => ⟨(s.cpu_frequency, "cpu_frequency", MetricType.CPU,
        s.cpu_frequency), by simp [theme_entries], rfl, rfl, rfl⟩⟩
  · exact ⟨fun hq => absurd
      (show ("cpu_load" : String) = "weather_stats" from hq) (by decide),
      fun _ => ⟨(s.cpu_load, "cpu_load", MetricType.CPU, s.cpu_load),
        by simp [theme_entries], rfl, rfl, rfl⟩⟩
  · exact ⟨fun hq => absurd
      (show ("cpu_temperature" : String) = "weather_stats" from hq) (by decide),
      fun _ => ⟨(s.cpu_temperature, "cpu_temperature", MetricType.CPU,
        s.cpu_temperature), by simp [theme_entries], rfl, rfl, rfl⟩⟩
  · exact ⟨fun hq => absurd
      (show ("cpu_fan_speed" : String) = "weather_stats" from hq) (by decide),
      fun _ => ⟨(s.cpu_fan_speed, "cpu_fan_speed", MetricType.CPU,
        s.cpu_fan_speed), by simp [theme_entries], rfl, rfl, rfl⟩⟩
  · exact ⟨fun hq => absurd
      (show ("gpu_stats" : String) = "weather_stats" from hq) (by decide),
      fun _ => ⟨(s.gpu, "gpu_stats", MetricType.GPU, s.gpu),
        by simp [theme_entries], rfl, rfl, rfl⟩⟩
  · exact ⟨fun hq => absurd
      (show ("memory_stats" : String) = "weather_stats" from hq) (by decide),
      fun _ => ⟨(s.memory, "memory_stats", MetricType.MEMORY, s.memory),
        by simp [theme_entries], rfl, rfl, rfl⟩⟩
  · exact ⟨fun hq => absurd
      (show ("disk_stats" : String) = "weather_stats" from hq) (by decide),
      fun _ => ⟨(s.disk, "disk_stats", MetricType.DISK, s.disk),
        by simp [theme_entries], rfl, rfl, rfl⟩⟩
  · exact ⟨fun hq => absurd
      (show ("net_stats" : String) = "weather_stats" from hq) (by decide),
      fun _ => ⟨(s.net, "net_stats", MetricType.NETWORK, s.net),
        by simp [theme_entries], rfl, rfl, rfl⟩⟩
  · exact ⟨fun _ => rfl, fun hq => absurd rfl hq⟩

/-- Witness for C9: the concrete theme with every interval 1 and weather
interval 10 succeeds, and its weather task interval is widened to 300 while
the others keep interval 1. -/
theorem create_default_config_weather_floor_witness :
    create_default_config_from_theme ⟨1, 1, 1, 1, 1, 1, 1, 1, 1, 10⟩ =
      Except.ok ⟨4, theme_tasks ⟨1, 1, 1, 1, 1, 1, 1, 1, 1, 10⟩⟩ :=
  (create_default_config_weather_floor ⟨1, 1, 1, 1, 1, 1, 1, 1, 1, 10⟩
    (fun _ => by norm_num) (fun _ => by norm_num) (fun _ => by norm_num)
    (fun _ => by norm_num) (fun _ => by norm_num) (fun _ => by norm_num)
    (fun _ => by norm_num) (fun _ => by norm_num) (fun _ => by norm_num)
    (by norm_num) (by norm_num)).1

end SystemMonitor
